import Mathlib

/-!
Verification of the brum-brum-tracker backend against its specification.

The Python sources are shallowly embedded: Python floats are modelled as
rationals, `None` as `Option.none`, raised exceptions as error results,
and stateful objects as explicit state records threaded through the
functions.  External I/O (the SQLite database, the hexdb and Planespotters
HTTP APIs, the wall clock) is passed in as explicit inputs or oracle
values, so every definition is executable.
-/

namespace BrumBrum

/-! ## Configuration constants (src/utils/constants.py) -/

/-- SEARCH_RADIUS_KM = 50 (src/utils/constants.py line 24). -/
def SEARCH_RADIUS_KM : ℚ := 50

/-- MIN_ELEVATION_ANGLE = 20 (src/utils/constants.py line 25). -/
def MIN_ELEVATION_ANGLE : ℚ := 20

/-! ## Geometry (src/backend/utils/geometry.py)

`haversine_distance`, `bearing_between` and `elevation_angle` are
real-valued trigonometric functions; the claims about the filtering
pipeline never depend on their numeric values, only on how the pipeline
uses their results, so they are abstracted as an oracle record below.
`is_plane_approaching` and `calculate_eta`, in contrast, are pure
rational arithmetic and are embedded directly. -/

/-- Python float modulo `a % b` (result has the sign of `b`; for the
positive modulus used in the source this lands in `[0, b)`). -/
def pymod (a b : ℚ) : ℚ := a - b * ⌊a / b⌋

/-- Embedding of `is_plane_approaching` (src/backend/utils/geometry.py
lines 100-118).  The Python default `threshold=90.0` is passed explicitly
by callers here.  Note the `home_bearing` parameter is accepted but never
used by the source body. -/
def is_plane_approaching (home_bearing plane_bearing true_track threshold : ℚ) : Bool :=
  let angle_diff := |pymod (plane_bearing - true_track + 180) 360 - 180|
  decide (angle_diff < threshold)

/-- The closed-form bearing test stated by the claim:
`|((plane_bearing - true_track + 180) mod 360) - 180| < threshold`. -/
def approaching_formula (plane_bearing true_track threshold : ℚ) : Bool :=
  decide (|pymod (plane_bearing - true_track + 180) 360 - 180| < threshold)

/-- Result type of `calculate_eta`: a Python float that may be
infinite. -/
inductive EtaValue where
  | finite (seconds : ℚ)
  | inf
deriving DecidableEq

/-- The `velocity_kmh` local of `calculate_eta`:
`velocity_ms * 3.6 if velocity_ms else 0` (a falsy velocity — `None` or
`0.0` — yields 0). -/
def eta_velocity_kmh (velocity_ms : Option ℚ) : ℚ :=
  match velocity_ms with
  | none => 0
  | some v => if v = 0 then 0 else v * (18 / 5)

/-- Embedding of the second (shadowing) definition of `calculate_eta`
(src/backend/utils/geometry.py lines 153-196).  Python defaults are
`current_elevation=0.0`, `target_elevation=20.0`, passed explicitly. -/
def calculate_eta (distance_km : ℚ) (velocity_ms : Option ℚ)
    (current_elevation target_elevation : ℚ) : EtaValue :=
  let velocity_kmh := eta_velocity_kmh velocity_ms
  if velocity_kmh < 10 then
    EtaValue.inf
  else if current_elevation ≥ target_elevation then
    EtaValue.finite 0
  else
    let eta_hours := distance_km / velocity_kmh
    let eta_seconds := eta_hours * 3600
    let eta_adjusted :=
      if current_elevation > 10 then
        eta_seconds * (1 - current_elevation / target_elevation * (3 / 10))
      else eta_seconds
    EtaValue.finite (max 0 eta_adjusted)

/-! ## Python string primitives

The inputs reaching the aircraft-type code are ASCII, so the Python
`str.upper`, `str.lower`, `str.strip`, `in`, `endswith`, `split` are
embedded as structural recursions over the character list (the built-in
`String` functions do not reduce inside the kernel). -/

/-- ASCII `str.upper` on one character. -/
def pyToUpper (c : Char) : Char :=
  if 'a' ≤ c && c ≤ 'z' then Char.ofNat (c.toNat - 32) else c

/-- ASCII `str.lower` on one character. -/
def pyToLower (c : Char) : Char :=
  if 'A' ≤ c && c ≤ 'Z' then Char.ofNat (c.toNat + 32) else c

/-- Python whitespace (the characters `str.strip` removes). -/
def pySpace (c : Char) : Bool :=
  c == ' ' || c == '\t' || c == '\n' || c == '\r' || c == '\x0b' || c == '\x0c'

/-- Whether `pat` occurs at the start of `l`. -/
def listStartsWith : List Char → List Char → Bool
  |  [], _ => true
  | _ :: _, [] => false
  | p :: ps, c :: cs => p == c && listStartsWith ps cs

/-- Whether `pat` occurs anywhere in `l` (Python `pat in l`). -/
def listContains (l pat : List Char) : Bool :=
  match l with
  | [] => pat.isEmpty
  | _ :: rest => listStartsWith pat l || listContains rest pat

/-- Python `pat in s`. -/
def strContains (s pat : String) : Bool := listContains s.toList pat.toList

/-- Python `s.upper()` (ASCII). -/
def strUpper (s : String) : String := ⟨s.toList.map pyToUpper⟩

/-- Python `s.lower()` (ASCII). -/
def strLower (s : String) : String := ⟨s.toList.map pyToLower⟩

/-- Python `s.strip()`. -/
def strTrim (s : String) : String :=
  ⟨((s.toList.dropWhile pySpace).reverse.dropWhile pySpace).reverse⟩

/-- Python `s.endswith(suffix)`. -/
def strEndsWith (s suffix : String) : Bool :=
  listStartsWith suffix.toList.reverse s.toList.reverse

/-- Helper for Python `s.split()`: words of a character list. -/
def splitWsAux : List Char → List Char → List String
  | [], acc => if acc.isEmpty then [] else [⟨acc.reverse⟩]
  | c :: cs, acc =>
    if pySpace c then
      if acc.isEmpty then splitWsAux cs [] else (⟨acc.reverse⟩ : String) :: splitWsAux cs []
    else splitWsAux cs (c :: acc)

/-- Python `len(s.split())`: number of whitespace-separated words. -/
def pyWordCount (s : String) : ℕ := (splitWsAux s.toList []).length

/-- Helper for the Python split at the first space (maxsplit 1), if any. -/
def splitOnceAux : List Char → Option (List Char × List Char)
  | [] => none
  | c :: cs =>
    if c == ' ' then some ([], cs)
    else
      match splitOnceAux cs with
      | none => none
      | some (a, b) => some (c :: a, b)

/-- Python split of `s` at the first space (maxsplit 1) as head part and
optional tail part. -/
def splitOnce (s : String) : Option (String × String) :=
  (splitOnceAux s.toList).map (fun p => (⟨p.1⟩, ⟨p.2⟩))

/-- Python `o or default` for an optional string (`None` and the empty string are
falsy). -/
def pyOr (o : Option String) (d : String) : String :=
  match o with
  | some s => if s = "" then d else s
  | none => d

/-! ## Aircraft type resolver (src/backend/core/aircraft_type_resolver.py) -/

/-- GENERIC_AIRCRAFT_TYPES (lines 19-30). -/
def GENERIC_AIRCRAFT_TYPES : List String :=
  ["Unknown Aircraft", "Aircraft", "Boeing Aircraft", "Airbus Aircraft",
   "CRJ Jet", "Unknown Model", "Prop Plane", "Small Plane", "Private Jet",
   "Regional Jet"]

/-- Embedding of `should_log_as_unidentified` (lines 33-48). -/
def should_log_as_unidentified (aircraft_type : String) : Bool :=
  if aircraft_type = "" then true
  else if GENERIC_AIRCRAFT_TYPES.contains aircraft_type then true
  else
    ["Aircraft", "Plane", "Jet", "Model"].any
      (fun ending => strEndsWith aircraft_type ending && pyWordCount aircraft_type ≤ 2)

/-- The `type_mappings` dict of `simplify_aircraft_type` (lines 59-96),
in Python insertion (= iteration) order. -/
def type_mappings : List (String × String) :=
  [("737", "Boeing 737"), ("747", "Boeing 747 Jumbo Jet"), ("757", "Boeing 757"),
   ("767", "Boeing 767"), ("777", "Boeing 777"), ("787", "Boeing 787 Dreamliner"),
   ("A319", "Airbus A319"), ("A320", "Airbus A320"), ("A321", "Airbus A321"),
   ("A330", "Airbus A330"), ("A340", "Airbus A340"), ("A350", "Airbus A350"),
   ("A380", "Airbus A380 Super Jumbo"),
   ("E170", "Embraer E170"), ("E175", "Embraer E175"), ("E190", "Embraer E190"),
   ("E195", "Embraer E195"), ("ERJ", "Embraer Regional Jet"),
   ("CRJ", "Bombardier CRJ"), ("Q400", "Bombardier Dash 8"), ("DHC-8", "Bombardier Dash 8"),
   ("ATR 42", "ATR 42 Propeller"), ("ATR 72", "ATR 72 Propeller"),
   ("Cessna", "Cessna Small Plane"), ("Beechcraft", "Beechcraft Small Plane"),
   ("Gulfstream", "Gulfstream Private Jet"), ("Learjet", "Learjet"),
   ("Citation", "Cessna Citation Jet")]

/-- The table loop of `simplify_aircraft_type` (lines 98-103): first
mapping whose uppercased pattern occurs in `full_type`. -/
def table_match (full_type : String) : Option String :=
  (type_mappings.find? (fun pr => strContains full_type (strUpper pr.1))).map (fun pr => pr.2)

/-- The manufacturer if/elif chain of `simplify_aircraft_type`
(lines 105-118), applied to the cleaned manufacturer and type name. -/
def manufacturer_rule (manufacturer type_name : String) : Option String :=
  let mu := strUpper manufacturer
  if strContains mu "BOEING" then
    some (if type_name ≠ "" then "Boeing " ++ type_name else "Boeing Aircraft")
  else if strContains mu "AIRBUS" then
    some (if type_name ≠ "" then "Airbus " ++ type_name else "Airbus Aircraft")
  else if strContains mu "CESSNA" then some "Cessna Small Plane"
  else if strContains mu "PIPER" then some "Piper Small Plane"
  else if strContains mu "BEECH" || strContains mu "BEECHCRAFT" then
    some "Beechcraft Small Plane"
  else none

/-- Embedding of `simplify_aircraft_type` (lines 51-128).  The callers
only pass strings, so the `(x or '')` guard reduces to the identity and
the cleaning step is `str.strip`.  Returns `none` for the final
`return None`. -/
def simplify_aircraft_type (manufacturer type_name : String) : Option String :=
  let m := strTrim manufacturer
  let t := strTrim type_name
  let full_type := strUpper (m ++ " " ++ t)
  match table_match full_type with
  | some friendly_name => some friendly_name
  | none =>
    match manufacturer_rule m t with
    | some r => some r
    | none =>
      if m ≠ "" && t ≠ "" then some (m ++ " " ++ t)
      else if m ≠ "" then some (m ++ " Aircraft")
      else if t ≠ "" then some t
      else none

/-- Cached row for one ICAO24 as `resolve_aircraft_type` reads it
(the `type` entry of the cached dict); `type = none` also covers a
missing key. -/
structure CachedAircraft where
  type : Option String
  image_url : Option String
deriving DecidableEq

/-- A hexdb response dict as `resolve_aircraft_type` reads it:
`manufacturer = some _` iff the Manufacturer key is present;
field values are the `.get(key, '')` results. -/
structure HexDetails where
  manufacturer : Option String
  type_name : Option String
deriving DecidableEq

/-- Observable outcome of one `resolve_aircraft_type` call: the returned
string, which external sources were consulted, the type string written to
the cache (if any), and whether an unidentified-aircraft diagnostic row
was written. -/
structure ResolveOutcome where
  result : String
  calledHexdb : Bool
  calledPlanespotters : Bool
  cacheWrite : Option String
  loggedUnidentified : Bool
deriving DecidableEq

/-- The Planespotters branch computation (lines 216-226): split the type
string at the first space, simplify, and fall back to the raw string. -/
def planespotters_simplified (p : String) : String :=
  match splitOnce p with
  | some (a, b) => pyOr (simplify_aircraft_type a b) p
  | none => pyOr (simplify_aircraft_type "" p) p

/-- Steps 3-4 of `resolve_aircraft_type` (lines 214-267): Planespotters,
then the final "Unknown Aircraft" fallback with its diagnostic row.
A `none` oracle models both an empty result and a raised-and-caught
exception. -/
def resolve_step3 (planespotters : Option String) : ResolveOutcome :=
  match planespotters with
  | some p =>
    if p ≠ "" then
      let final_type := planespotters_simplified p
      { result := final_type, calledHexdb := true, calledPlanespotters := true,
        cacheWrite := some final_type,
        loggedUnidentified := should_log_as_unidentified final_type }
    else
      { result := "Unknown Aircraft", calledHexdb := true, calledPlanespotters := true,
        cacheWrite := none, loggedUnidentified := true }
  | none =>
      { result := "Unknown Aircraft", calledHexdb := true, calledPlanespotters := true,
        cacheWrite := none, loggedUnidentified := true }

/-- Step 2 of `resolve_aircraft_type` (lines 178-212): the hexdb lookup,
falling through to step 3 on a miss. -/
def resolve_step2 (hexdb : Option HexDetails) (planespotters : Option String) :
    ResolveOutcome :=
  match hexdb with
  | some d =>
    match d.manufacturer with
    | some _ =>
      let manufacturer := d.manufacturer.getD ""
      let type_name := d.type_name.getD ""
      match simplify_aircraft_type manufacturer type_name with
      | some simplified =>
        if simplified ≠ "" then
          { result := simplified, calledHexdb := true, calledPlanespotters := false,
            cacheWrite := some simplified,
            loggedUnidentified := should_log_as_unidentified simplified }
        else resolve_step3 planespotters
      | none => resolve_step3 planespotters
    | none => resolve_step3 planespotters
  | none => resolve_step3 planespotters

/-- Embedding of `resolve_aircraft_type` (lines 131-268) with the three
data sources given as oracle inputs.  The cache write in the source
stores the resolved type (either into the existing cached row or a fresh
row); the outcome records the type string written. -/
def resolve_aircraft_type (cached_data : Option CachedAircraft)
    (hexdb : Option HexDetails) (planespotters : Option String) : ResolveOutcome :=
  match cached_data with
  | some c =>
    match c.type with
    | some cached_type =>
      if cached_type ≠ "" then
        if !(strContains (strLower cached_type) "placeholder")
            && cached_type ≠ "Unknown Aircraft" then
          { result := cached_type, calledHexdb := false, calledPlanespotters := false,
            cacheWrite := none, loggedUnidentified := false }
        else resolve_step2 hexdb planespotters
      else resolve_step2 hexdb planespotters
    | none => resolve_step2 hexdb planespotters
  | none => resolve_step2 hexdb planespotters

/-! ## Flight-data filtering (src/backend/opensky_client.py)

The pipeline calls the real-valued geometry functions
`haversine_distance`, `bearing_between` and `elevation_angle`
(src/backend/utils/geometry.py).  The visibility claim only relates the
decisions of the pipeline relative to the values these functions return, never to the
trigonometry itself, so they are supplied as an abstract record of
rational-valued functions; every theorem below holds for all
instantiations, in particular for the floating-point originals. -/

/-- The three real-valued geometry functions used by the pipeline. -/
structure Geometry where
  haversine_distance : ℚ → ℚ → ℚ → ℚ → ℚ
  bearing_between : ℚ → ℚ → ℚ → ℚ → ℚ
  elevation_angle : ℚ → ℚ → ℚ

/-- One OpenSky state vector as `filter_aircraft` reads it (the fields
of the dict built in `get_states_in_area` that the filter consults). -/
structure Aircraft where
  icao24 : String
  on_ground : Bool
  baro_altitude : Option ℚ
  latitude : ℚ
  longitude : ℚ
  true_track : Option ℚ
deriving DecidableEq

/-- An aircraft dict after `filter_aircraft` has enriched it with
`distance_km`, `bearing_from_home` and `bearing_to_home`; `altitude` is
the (present) `baro_altitude` the filter checked. -/
structure EnrichedAircraft where
  base : Aircraft
  altitude : ℚ
  distance_km : ℚ
  bearing_from_home : ℚ
  bearing_to_home : ℚ
deriving DecidableEq

/-- The loop body of `FlightDataClient.filter_aircraft`
(src/backend/opensky_client.py lines 356-420) for one aircraft:
`none` models `continue`. -/
def filter_one (g : Geometry) (home_lat home_lon : ℚ) (aircraft : Aircraft) :
    Option EnrichedAircraft :=
  if aircraft.on_ground then none
  else
    match aircraft.baro_altitude with
    | none => none
    | some alt =>
      if alt < 500 then none
      else
        let distance := g.haversine_distance home_lat home_lon
          aircraft.latitude aircraft.longitude
        if distance > SEARCH_RADIUS_KM then none
        else
          let home_to_plane := g.bearing_between home_lat home_lon
            aircraft.latitude aircraft.longitude
          let plane_to_home := g.bearing_between aircraft.latitude aircraft.longitude
            home_lat home_lon
          match aircraft.true_track with
          | some tt =>
            if !(is_plane_approaching home_to_plane plane_to_home tt 90) then none
            else some ⟨aircraft, alt, distance, home_to_plane, plane_to_home⟩
          | none => some ⟨aircraft, alt, distance, home_to_plane, plane_to_home⟩

/-- Embedding of `FlightDataClient.filter_aircraft`. -/
def filter_aircraft (g : Geometry) (home_lat home_lon : ℚ) (l : List Aircraft) :
    List EnrichedAircraft :=
  l.filterMap (filter_one g home_lat home_lon)

/-- Embedding of `FlightDataClient.is_visible`
(src/backend/opensky_client.py lines 422-442) on a filtered aircraft
(which always carries `distance_km`). -/
def is_visible (g : Geometry) (aircraft : EnrichedAircraft) : Bool :=
  decide (g.elevation_angle aircraft.distance_km aircraft.altitude ≥ MIN_ELEVATION_ANGLE)

/-! ## Shared association-list lookup (Python dict access by key) -/

/-- First value stored under `k`, Python `d[k]` / `k in d`. -/
def lookupKey {β : Type} (k : String) : List (String × β) → Option β
  | [] => none
  | (k2, v) :: rest => if k2 = k then some v else lookupKey k rest

/-! ## Logbook table (src/backend/database/db.py)

The `logbook` SQLite table is keyed by `aircraft_type` (PRIMARY KEY) and
is modelled as an association list in insertion order.  SQLite
`CURRENT_TIMESTAMP` values are modelled as an abstract monotone integer
clock passed in by the caller; the source only stores and compares
them. -/

/-- One row of the `logbook` table; `image_url` is a nullable column. -/
structure LogbookRow where
  image_url : Option String
  first_spotted : ℤ
  last_spotted : Option ℤ
  sighting_count : ℤ
deriving DecidableEq

/-- SQL `COALESCE` for two nullable strings: first non-NULL value. -/
def coalesce (a b : Option String) : Option String :=
  match a with
  | some x => some x
  | none => b

/-- Embedding of `AircraftDatabase.add_to_logbook`
(src/backend/database/db.py lines 91-107).  The Python parameter is
bound as `image_url or ''`, so the inserted value (SQL `excluded.image_url`)
is always a non-NULL string; `ON CONFLICT(aircraft_type) DO UPDATE SET
sighting_count = sighting_count + 1, last_spotted = CURRENT_TIMESTAMP,
image_url = COALESCE(excluded.image_url, image_url)`. -/
def add_to_logbook (logbook : List (String × LogbookRow)) (aircraft_type : String)
    (image_url : Option String) (now : ℤ) : List (String × LogbookRow) :=
  let bound : String := pyOr image_url ""
  match lookupKey aircraft_type logbook with
  | none => logbook ++ [(aircraft_type, ⟨some bound, now, some now, 1⟩)]
  | some _ =>
    logbook.map (fun pr =>
      if pr.1 = aircraft_type then
        (pr.1, ⟨coalesce (some bound) pr.2.image_url, pr.2.first_spotted,
                some now, pr.2.sighting_count + 1⟩)
      else pr)

/-! ## Logbook service (src/backend/core/logbook_service.py)

`LogbookService` keeps a per-session set `spotted_aircraft` of ICAO24
addresses; the SQLite write in `add_aircraft_to_logbook` either succeeds
or raises, which is supplied as the oracle `dbWriteOk`. -/

/-- Embedding of `LogbookService.should_add_to_logbook` (lines 122-150). -/
def should_add_to_logbook (spotted_aircraft : List String)
    (icao24 aircraft_type : String) : Bool :=
  if spotted_aircraft.contains icao24 then false
  else if aircraft_type = "Unknown Aircraft" then false
  else true

/-- Observable outcome of `process_aircraft_for_logbook`: the returned
flag, the session set afterwards, and whether a database write was
attempted. -/
structure ProcessOutcome where
  result : Bool
  spotted_aircraft : List String
  writeAttempted : Bool
deriving DecidableEq

/-- Embedding of `LogbookService.process_aircraft_for_logbook`
(lines 152-191): gate via `should_add_to_logbook`, attempt the database
write, and mark the aircraft spotted only after a successful write. -/
def process_aircraft_for_logbook (spotted_aircraft : List String)
    (icao24 aircraft_type : String) (image_url : Option String)
    (dbWriteOk : Bool) : ProcessOutcome :=
  if !(should_add_to_logbook spotted_aircraft icao24 aircraft_type) then
    ⟨false, spotted_aircraft, false⟩
  else if dbWriteOk then
    ⟨true, icao24 :: spotted_aircraft, true⟩
  else
    ⟨false, spotted_aircraft, true⟩

/-! ## In-process LRU cache with TTL (src/backend/aircraft_cache.py)

`time.time()` readings are modelled by an integer clock passed to each
operation; the dict `OrderedDict` is an association list whose head is
the least recently used entry. -/

/-- Embedding of `CacheEntry` (lines 18-34). -/
structure CacheEntry (α : Type) where
  data : α
  expires_at : ℤ
  hits : ℕ
  created_at : ℤ
deriving DecidableEq

/-- Embedding of `CacheEntry.is_expired`: `time.time() > expires_at`. -/
def CacheEntry.is_expired {α : Type} (e : CacheEntry α) (now : ℤ) : Bool :=
  decide (now > e.expires_at)

/-- Embedding of `CacheEntry.access`: return the data and bump the hit
count of the stored entry. -/
def CacheEntry.access {α : Type} (e : CacheEntry α) : α × CacheEntry α :=
  (e.data, { e with hits := e.hits + 1 })

/-- The `stats` dict of `LRUCache`. -/
structure CacheStats where
  hits : ℕ
  misses : ℕ
  evictions : ℕ
  expirations : ℕ
deriving DecidableEq

/-- Embedding of `LRUCache` (lines 37-57). -/
structure LRUCache (α : Type) where
  max_size : ℕ
  default_ttl : ℤ
  cache : List (String × CacheEntry α)
  stats : CacheStats
deriving DecidableEq

/-- Python `del cache[key]` on the ordered dict. -/
def eraseKey {β : Type} (k : String) (l : List (String × β)) : List (String × β) :=
  l.filter (fun pr => pr.1 ≠ k)

/-- Embedding of `LRUCache.get` (lines 59-79): a missing key counts a
miss; an expired entry is deleted and counts one expiration and one
miss; otherwise the entry moves to the most-recently-used end, counts a
hit, and its data is returned via `access`. -/
def LRUCache.get {α : Type} (c : LRUCache α) (key : String) (now : ℤ) :
    Option α × LRUCache α :=
  match lookupKey key c.cache with
  | none =>
    (none, { c with stats := { c.stats with misses := c.stats.misses + 1 } })
  | some entry =>
    if entry.is_expired now then
      (none, { c with
        cache := eraseKey key c.cache,
        stats := { c.stats with
          expirations := c.stats.expirations + 1,
          misses := c.stats.misses + 1 } })
    else
      let a := entry.access
      (some a.1, { c with
        cache := eraseKey key c.cache ++ [(key, a.2)],
        stats := { c.stats with hits := c.stats.hits + 1 } })

/-- The eviction loop of `LRUCache.set`: drop oldest entries while over
capacity, counting evictions. -/
def evictLoop {α : Type} (max_size : ℕ) :
    List (String × CacheEntry α) → CacheStats →
    List (String × CacheEntry α) × CacheStats
  | [], s => ([], s)
  | x :: xs, s =>
    if (x :: xs).length > max_size then
      evictLoop max_size xs { s with evictions := s.evictions + 1 }
    else (x :: xs, s)

/-- Embedding of `LRUCache.set` (lines 81-95).  Python `ttl or
self.default_ttl` treats a zero TTL as falsy. -/
def LRUCache.set {α : Type} (c : LRUCache α) (key : String) (value : α)
    (ttl : Option ℤ) (now : ℤ) : LRUCache α :=
  let cache1 :=
    if (lookupKey key c.cache).isSome then eraseKey key c.cache else c.cache
  let ttl2 :=
    match ttl with
    | some t => if t = 0 then c.default_ttl else t
    | none => c.default_ttl
  let cache2 := cache1 ++ [(key, ⟨value, now + ttl2, 0, now⟩)]
  let ev := evictLoop c.max_size cache2 c.stats
  { c with cache := ev.1, stats := ev.2 }

/-! ## WebSocket rate limiter (src/backend/rate_limiter.py)

Every tracking structure of `RateLimiter` is keyed by the client IP and
entries for distinct IPs never interact, so the state is modelled for
one fixed client IP.  The message-path state (`message_counts`) is
disjoint from the connection path and not involved in the claim, so it
is omitted.  `time.time()` readings are an integer clock. -/

/-- Per-client-IP state and configuration of `RateLimiter`. -/
structure RateLimiter where
  connection_limit : ℕ
  connection_window : ℤ
  max_connections_per_ip : ℕ
  connection_attempts : List ℤ
  active_connections : ℕ
deriving DecidableEq

/-- A fresh `RateLimiter` for an IP with no recorded attempts (the
`defaultdict` start state). -/
def mkRateLimiter (connection_limit : ℕ) (connection_window : ℤ)
    (max_connections_per_ip : ℕ) : RateLimiter :=
  ⟨connection_limit, connection_window, max_connections_per_ip, [], 0⟩

/-- Embedding of `RateLimiter.check_connection_allowed` (lines 148-185):
prune attempts older than the window, reject when the window already
holds `connection_limit` attempts, reject when the active-connection
counter has reached `max_connections_per_ip`, otherwise record the
attempt and increment the counter.  `false` models the raised
`RateLimitExceeded`. -/
def check_connection_allowed (rl : RateLimiter) (now : ℤ) : Bool × RateLimiter :=
  let attempts := rl.connection_attempts.dropWhile
    (fun t => decide (t < now - rl.connection_window))
  if attempts.length ≥ rl.connection_limit then
    (false, { rl with connection_attempts := attempts })
  else if rl.active_connections ≥ rl.max_connections_per_ip then
    (false, { rl with connection_attempts := attempts })
  else
    (true, { rl with
      connection_attempts := attempts ++ [now],
      active_connections := rl.active_connections + 1 })

/-- Embedding of the connection part of `RateLimiter.connection_closed`
(lines 216-233): decrement the active counter, floored at 0. -/
def connection_closed (rl : RateLimiter) : RateLimiter :=
  { rl with active_connections := rl.active_connections - 1 }

/-- One admission attempt whose connection, when accepted, is closed
again before the next attempt (the admission scenario of the claim: the
window cap is observed in isolation from the concurrency cap). -/
def admitClose (rl : RateLimiter) (now : ℤ) : Bool × RateLimiter :=
  match check_connection_allowed rl now with
  | (true, rl2) => (true, connection_closed rl2)
  | (false, rl2) => (false, rl2)

/-- Iterate `admitClose` `n` times at one timestamp, counting accepted
admissions. -/
def admitCloseN (rl : RateLimiter) (now : ℤ) : ℕ → ℕ × RateLimiter
  | 0 => (0, rl)
  | n + 1 =>
    let r := admitClose rl now
    let rest := admitCloseN r.2 now n
    ((if r.1 then 1 else 0) + rest.1, rest.2)

/-! ## WebSocket message validation (src/backend/message_validator.py)

A parsed JSON value as Python sees it: note that Python `bool` is a
subclass of `int`, so `isinstance(x, int)` also accepts booleans; JSON
values of any other shape (floats, strings, arrays, objects, null) fail
the `isinstance` check and are collapsed into the remaining
constructors. -/

/-- A parsed JSON value, as far as the validator inspects it. -/
inductive JVal where
  | jnull
  | jbool (b : Bool)
  | jint (n : ℤ)
  | jstr (s : String)
  | jrest
deriving DecidableEq

/-- Python `isinstance(v, int)` with the integer value it denotes
(`True == 1`, `False == 0`). -/
def pyIntValue : JVal → Option ℤ
  | JVal.jint n => some n
  | JVal.jbool b => some (if b then 1 else 0)
  | _ => none

/-- Embedding of `MessageValidator._validate_get_logbook` (lines 75-84):
an optional `limit` must be an `int` that is at least 1 and at most
1000. -/
def validate_get_logbook (data : List (String × JVal)) :
    Except String (List (String × JVal)) :=
  match lookupKey "limit" data with
  | none => Except.ok data
  | some v =>
    match pyIntValue v with
    | none => Except.error "Limit must be a positive integer"
    | some n =>
      if n < 1 then Except.error "Limit must be a positive integer"
      else if n > 1000 then Except.error "Limit cannot exceed 1000"
      else Except.ok data

/-- Embedding of `MessageValidator.validate_client_message`
(lines 33-66) from the parsed-dict stage on: requires a `type` field,
dispatches on it, and rejects unknown types. -/
def validate_client_message (data : List (String × JVal)) :
    Except String (List (String × JVal)) :=
  match lookupKey "type" data with
  | none => Except.error "Message must have a \x27type\x27 field"
  | some t =>
    if t = JVal.jstr "hello" then Except.ok data
    else if t = JVal.jstr "get_logbook" then validate_get_logbook data
    else Except.error "Unknown message type"

/-- The acceptance condition stated by the claim for a `get_logbook`
message: the `limit` field is absent, or holds an integer between 1 and
1000. -/
def limit_ok (data : List (String × JVal)) : Bool :=
  match lookupKey "limit" data with
  | none => true
  | some v =>
    match pyIntValue v with
    | none => false
    | some n => decide (1 ≤ n) && decide (n ≤ 1000)

/-! ## Concrete fixtures used by witness theorems -/

/-- A concrete geometry oracle: every distance is 10 km, every bearing
45°, every elevation angle 30°. -/
def sampleGeometry : Geometry :=
  ⟨fun _ _ _ _ => 10, fun _ _ _ _ => 45, fun _ _ => 30⟩

/-- A concrete airborne aircraft at 1000 m on a closing track. -/
def sampleAircraft : Aircraft :=
  ⟨"abc123", false, some 1000, 1, 2, some 40⟩

/-- The enrichment `filter_aircraft` produces for `sampleAircraft` under
`sampleGeometry` with home (0, 0). -/
def sampleEnriched : EnrichedAircraft :=
  ⟨sampleAircraft, 1000, 10, 45, 45⟩

/-- A concrete cache holding one entry that expires at time 10. -/
def sampleCache : LRUCache String :=
  ⟨100, 300, [("icao_abc", ⟨"Boeing 737", 10, 0, 0⟩)], ⟨0, 0, 0, 0⟩⟩

/-! # Theorems

All model definitions are above; the claim theorems and their
supporting lemmas follow. -/

/-- What `filter_one` guarantees about any aircraft it lets through. -/
theorem filter_one_spec (g : Geometry) (home_lat home_lon : ℚ) (a : Aircraft)
    (e : EnrichedAircraft) (h : filter_one g home_lat home_lon a = some e) :
    e.base = a ∧ a.on_ground = false ∧ a.baro_altitude = some e.altitude ∧
    e.altitude ≥ 500 ∧
    e.distance_km = g.haversine_distance home_lat home_lon a.latitude a.longitude ∧
    e.distance_km ≤ SEARCH_RADIUS_KM ∧
    e.bearing_from_home = g.bearing_between home_lat home_lon a.latitude a.longitude ∧
    e.bearing_to_home = g.bearing_between a.latitude a.longitude home_lat home_lon ∧
    (∀ tt, a.true_track = some tt →
      is_plane_approaching e.bearing_from_home e.bearing_to_home tt 90 = true) := by
  cases hog : a.on_ground with
  | true => simp [filter_one, hog] at h
  | false =>
    cases ha : a.baro_altitude with
    | none => simp [filter_one, hog, ha] at h
    | some alt =>
      by_cases h500 : alt < 500
      · simp [filter_one, hog, ha, h500] at h
      · by_cases hdist : g.haversine_distance home_lat home_lon a.latitude a.longitude
            > SEARCH_RADIUS_KM
        · simp [filter_one, hog, ha, h500, hdist] at h
        · cases htt : a.true_track with
          | some tt =>
            cases happ : is_plane_approaching
                (g.bearing_between home_lat home_lon a.latitude a.longitude)
                (g.bearing_between a.latitude a.longitude home_lat home_lon) tt 90 with
            | false => simp [filter_one, hog, ha, h500, hdist, htt, happ] at h
            | true =>
              simp only [filter_one, hog, ha, htt, happ, if_neg h500, if_neg hdist,
                Bool.false_eq_true, if_false, Bool.not_true, Option.some.injEq] at h
              subst h
              refine ⟨rfl, rfl, rfl, le_of_not_lt h500, rfl, le_of_not_lt hdist,
                rfl, rfl, ?_⟩
              intro tt2 htt2
              injection htt2 with htteq
              subst htteq
              exact happ
          | none =>
            simp only [filter_one, hog, ha, htt, if_neg h500, if_neg hdist,
              Bool.false_eq_true, if_false, Option.some.injEq] at h
            subst h
            refine ⟨rfl, rfl, rfl, le_of_not_lt h500, rfl, le_of_not_lt hdist,
              rfl, rfl, ?_⟩
            intro tt2 htt2
            simp at htt2

/-! ## Theorems for claims C7 and C10 -/

/-- C7 counterexample: the claim says `calculate_eta` returns 0 for EVERY
distance and velocity once `current_elevation ≥ target_elevation`, but the
speed check runs first: at distance 100 km, velocity 1 m/s (3.6 km/h)
and elevation 25° ≥ 20° the function returns infinity, not 0. -/
theorem calculate_eta_overhead_claim_counterexample :
    (25 : ℚ) ≥ 20 ∧ calculate_eta 100 (some 1) 25 20 ≠ EtaValue.finite 0 := by
  refine ⟨by norm_num, ?_⟩
  have h : calculate_eta 100 (some 1) 25 20 = EtaValue.inf := by
    norm_num [calculate_eta, eta_velocity_kmh]
  rw [h]
  exact fun hc => EtaValue.noConfusion hc

/-- C7 (amended): for every input whose ground speed is below 10 km/h
(including a falsy velocity), `calculate_eta` returns infinity; and
whenever the speed check passes (ground speed at least 10 km/h),
`current_elevation ≥ target_elevation` yields ETA 0. -/
theorem calculate_eta_threshold_spec (distance_km : ℚ) (velocity_ms : Option ℚ)
    (current_elevation target_elevation : ℚ) :
    (eta_velocity_kmh velocity_ms < 10 →
      calculate_eta distance_km velocity_ms current_elevation target_elevation
        = EtaValue.inf) ∧
    (10 ≤ eta_velocity_kmh velocity_ms → target_elevation ≤ current_elevation →
      calculate_eta distance_km velocity_ms current_elevation target_elevation
        = EtaValue.finite 0) := by
  constructor
  · intro h
    simp [calculate_eta, h]
  · intro h h2
    simp [calculate_eta, not_lt.2 h, ge_iff_le, h2]

/-- C7 witness: concrete instances of both branches. -/
theorem calculate_eta_threshold_spec_witness :
    calculate_eta 100 (some 1) 0 20 = EtaValue.inf ∧
    calculate_eta 100 (some 50) 25 20 = EtaValue.finite 0 :=
  ⟨(calculate_eta_threshold_spec 100 (some 1) 0 20).1 (by norm_num [eta_velocity_kmh]),
   (calculate_eta_threshold_spec 100 (some 50) 25 20).2
     (by norm_num [eta_velocity_kmh]) (by norm_num)⟩

/-- C3: `resolve_aircraft_type` consults its sources in strict priority
order and short-circuits at the first success: a cached non-placeholder,
non-"Unknown Aircraft" type is returned without consulting hexdb or
Planespotters and without writes; with an empty cache but a hexdb hit the
simplified hexdb result is cached and returned without consulting
Planespotters; with cache and hexdb failing a Planespotters hit is used
and cached; with all three failing the result is exactly
"Unknown Aircraft" and an unidentified-aircraft diagnostic row is
written. -/
theorem resolve_aircraft_type_priority_order (cached : Option CachedAircraft)
    (hexdb : Option HexDetails) (ps : Option String) :
    (∀ c t, cached = some c → c.type = some t → t ≠ "" →
      strContains (strLower t) "placeholder" = false → t ≠ "Unknown Aircraft" →
      resolve_aircraft_type cached hexdb ps = ⟨t, false, false, none, false⟩) ∧
    (∀ d m s, cached = none → hexdb = some d → d.manufacturer = some m →
      simplify_aircraft_type m (d.type_name.getD "") = some s → s ≠ "" →
      resolve_aircraft_type cached hexdb ps
        = ⟨s, true, false, some s, should_log_as_unidentified s⟩) ∧
    (∀ p, cached = none → hexdb = none → ps = some p → p ≠ "" →
      resolve_aircraft_type cached hexdb ps
        = ⟨planespotters_simplified p, true, true, some (planespotters_simplified p),
           should_log_as_unidentified (planespotters_simplified p)⟩) ∧
    (cached = none → hexdb = none → ps = none →
      resolve_aircraft_type cached hexdb ps
        = ⟨"Unknown Aircraft", true, true, none, true⟩) := by
  refine ⟨?_, ?_, ?_, ?_⟩
  · intro c t hc ht hne hpl hunk
    subst hc
    simp [resolve_aircraft_type, ht, hne, hpl, hunk]
  · intro d m s hc hh hm hs hsne
    subst hc; subst hh
    simp [resolve_aircraft_type, resolve_step2, hm, hs, hsne]
  · intro p hc hh hp hpne
    subst hc; subst hh; subst hp
    simp [resolve_aircraft_type, resolve_step2, resolve_step3, hpne]
  · intro hc hh hp
    subst hc; subst hh; subst hp
    rfl

/-- C3 witness: concrete runs exercising each of the four priority
levels. -/
theorem resolve_aircraft_type_priority_order_witness :
    resolve_aircraft_type (some ⟨some "Boeing 747 Jumbo Jet", none⟩) none none
      = ⟨"Boeing 747 Jumbo Jet", false, false, none, false⟩ ∧
    resolve_aircraft_type none (some ⟨some "Boeing", some "737-800"⟩) none
      = ⟨"Boeing 737", true, false, some "Boeing 737", false⟩ ∧
    resolve_aircraft_type none none (some "Airbus A320")
      = ⟨"Airbus A320", true, true, some "Airbus A320", false⟩ ∧
    resolve_aircraft_type none none none
      = ⟨"Unknown Aircraft", true, true, none, true⟩ := by
  have h := resolve_aircraft_type_priority_order
    (some ⟨some "Boeing 747 Jumbo Jet", none⟩) none none
  have h2 := resolve_aircraft_type_priority_order
    none (some ⟨some "Boeing", some "737-800"⟩) none
  have h3 := resolve_aircraft_type_priority_order none none (some "Airbus A320")
  have h4 := resolve_aircraft_type_priority_order none none none
  refine ⟨h.1 ⟨some "Boeing 747 Jumbo Jet", none⟩ "Boeing 747 Jumbo Jet"
      rfl rfl (by decide) (by decide) (by decide), ?_, ?_, h4.2.2.2 rfl rfl rfl⟩
  · have := h2.2.1 ⟨some "Boeing", some "737-800"⟩ "Boeing" "Boeing 737"
      rfl rfl rfl (by decide) (by decide)
    rw [this]
    decide
  · have := h3.2.2.1 "Airbus A320" rfl rfl rfl (by decide)
    rw [this]
    decide

/-- C8 counterexample: the claim says
`simplify_aircraft_type("Airbus", "A388")` returns
"Airbus A380 Super Jumbo", but "A380" is not a substring of
"AIRBUS A388", so the table entry never fires and the Airbus
manufacturer-prefix rule answers instead. -/
theorem simplify_aircraft_type_a388_counterexample :
    simplify_aircraft_type "Airbus" "A388" ≠ some "Airbus A380 Super Jumbo" := by
  decide

/-- C8 (amended): `simplify_aircraft_type("Boeing", "737-800")` returns
"Boeing 737"; `simplify_aircraft_type("Airbus", "A388")` returns
"Airbus A388" (the manufacturer-prefix rule, not the A380 table entry);
a manufacturer+type pair matching no table entry and no
manufacturer-prefix rule, with both non-empty, yields their
space-separated concatenation; and with both empty the result is
absent. -/
theorem simplify_aircraft_type_spec :
    simplify_aircraft_type "Boeing" "737-800" = some "Boeing 737" ∧
    simplify_aircraft_type "Airbus" "A388" = some "Airbus A388" ∧
    (∀ manufacturer type_name,
      table_match (strUpper (strTrim manufacturer ++ " " ++ strTrim type_name)) = none →
      manufacturer_rule (strTrim manufacturer) (strTrim type_name) = none →
      strTrim manufacturer ≠ "" → strTrim type_name ≠ "" →
      simplify_aircraft_type manufacturer type_name
        = some (strTrim manufacturer ++ " " ++ strTrim type_name)) ∧
    simplify_aircraft_type "" "" = none := by
  refine ⟨by decide, by decide, ?_, by decide⟩
  intro manufacturer type_name h1 h2 h3 h4
  simp [simplify_aircraft_type, h1, h2, h3, h4]

/-- C8 witness: a pair hitting no table entry and no manufacturer rule
concatenates. -/
theorem simplify_aircraft_type_spec_witness :
    simplify_aircraft_type "Fokker" "F100" = some "Fokker F100" := by
  have h := simplify_aircraft_type_spec.2.2.1 "Fokker" "F100"
    (by decide) (by decide) (by decide) (by decide)
  rw [h]
  decide

/-- C10: `is_plane_approaching` ignores its `home_bearing` argument — the
result is the same for any two home bearings — and equals the closed-form
test `|((plane_bearing - true_track + 180) mod 360) - 180| < threshold`. -/
theorem is_plane_approaching_ignores_home_bearing
    (h1 h2 plane_bearing true_track threshold : ℚ) :
    is_plane_approaching h1 plane_bearing true_track threshold
      = is_plane_approaching h2 plane_bearing true_track threshold ∧
    is_plane_approaching h1 plane_bearing true_track threshold
      = approaching_formula plane_bearing true_track threshold :=
  ⟨rfl, rfl⟩

/-- C1: every aircraft that survives `filter_aircraft` and for which
`is_visible` returns true is airborne, has a present barometric altitude
of at least 500 m, lies within the configured search radius of home by
haversine distance, is on a closing bearing whenever a true track is
present (per the §4.2 check of the filter), and sits at or above
MIN_ELEVATION_ANGLE.  The theorem holds for every instantiation of the
real-valued geometry functions. -/
theorem visibility_invariant (g : Geometry) (home_lat home_lon : ℚ)
    (l : List Aircraft) (e : EnrichedAircraft)
    (hmem : e ∈ filter_aircraft g home_lat home_lon l)
    (hvis : is_visible g e = true) :
    e.base.on_ground = false ∧
    e.base.baro_altitude = some e.altitude ∧
    500 ≤ e.altitude ∧
    e.distance_km = g.haversine_distance home_lat home_lon e.base.latitude e.base.longitude ∧
    e.distance_km ≤ SEARCH_RADIUS_KM ∧
    e.bearing_from_home = g.bearing_between home_lat home_lon e.base.latitude e.base.longitude ∧
    e.bearing_to_home = g.bearing_between e.base.latitude e.base.longitude home_lat home_lon ∧
    (∀ tt, e.base.true_track = some tt →
      is_plane_approaching e.bearing_from_home e.bearing_to_home tt 90 = true) ∧
    MIN_ELEVATION_ANGLE ≤ g.elevation_angle e.distance_km e.altitude := by
  rw [filter_aircraft, List.mem_filterMap] at hmem
  obtain ⟨a, _, hfa⟩ := hmem
  obtain ⟨hbase, hog, hba, halt, hd, hdr, hb1, hb2, happ⟩ :=
    filter_one_spec g home_lat home_lon a e hfa
  subst hbase
  refine ⟨hog, hba, halt, hd, hdr, hb1, hb2, happ, ?_⟩
  simpa [is_visible, ge_iff_le] using hvis

/-- C1 witness: a concrete aircraft passing the whole pipeline. -/
theorem visibility_invariant_witness :
    sampleEnriched.base.on_ground = false ∧
    sampleEnriched.base.baro_altitude = some sampleEnriched.altitude ∧
    500 ≤ sampleEnriched.altitude ∧
    sampleEnriched.distance_km
      = sampleGeometry.haversine_distance 0 0 sampleEnriched.base.latitude
          sampleEnriched.base.longitude ∧
    sampleEnriched.distance_km ≤ SEARCH_RADIUS_KM ∧
    sampleEnriched.bearing_from_home
      = sampleGeometry.bearing_between 0 0 sampleEnriched.base.latitude
          sampleEnriched.base.longitude ∧
    sampleEnriched.bearing_to_home
      = sampleGeometry.bearing_between sampleEnriched.base.latitude
          sampleEnriched.base.longitude 0 0 ∧
    (∀ tt, sampleEnriched.base.true_track = some tt →
      is_plane_approaching sampleEnriched.bearing_from_home
        sampleEnriched.bearing_to_home tt 90 = true) ∧
    MIN_ELEVATION_ANGLE
      ≤ sampleGeometry.elevation_angle sampleEnriched.distance_km
          sampleEnriched.altitude := by
  have hone : filter_one sampleGeometry 0 0 sampleAircraft = some sampleEnriched := by
    norm_num [filter_one, sampleGeometry, sampleAircraft, sampleEnriched,
      is_plane_approaching, pymod, SEARCH_RADIUS_KM]
  exact visibility_invariant sampleGeometry 0 0 [sampleAircraft] sampleEnriched
    (by simp [filter_aircraft, List.filterMap_cons, hone])
    (by norm_num [is_visible, sampleGeometry, sampleEnriched, MIN_ELEVATION_ANGLE])

/-- C2 (code bug): adding the same aircraft type twice leaves one row
with `sighting_count = 2`, `first_spotted` unchanged and `last_spotted`
advanced — but when the second call supplies an empty image URL the
stored URL is OVERWRITTEN by the empty string rather than preserved: the
Python binding `image_url or ''` makes `excluded.image_url` a non-NULL
the empty string, so the SQL COALESCE selects it over the stored URL. -/
theorem add_to_logbook_second_call_overwrites_image :
    add_to_logbook
        (add_to_logbook [] "Boeing 737" (some "https://example.com/737.jpg") 100)
        "Boeing 737" (some "") 200
      = [("Boeing 737", ⟨some "", 100, some 200, 2⟩)] ∧
    (some "" : Option String) ≠ some "https://example.com/737.jpg" := by
  constructor
  · decide
  · decide

/-- C4: `process_aircraft_for_logbook` returns true — writing to the
database and marking the aircraft spotted — exactly on a first-in-session
call with a known type and a successful write; it returns false without
touching the database for an already-spotted ICAO24 or an
"Unknown Aircraft" type; a failed write returns false and leaves the
session set unchanged, so the aircraft can be retried; and after a
successful call, any further call for the same ICAO24 in the session
returns false without writing. -/
theorem process_aircraft_for_logbook_spec (spotted : List String)
    (icao24 aircraft_type : String) (image_url : Option String) (ok : Bool) :
    (spotted.contains icao24 = false → aircraft_type ≠ "Unknown Aircraft" →
      ok = true →
      process_aircraft_for_logbook spotted icao24 aircraft_type image_url ok
        = ⟨true, icao24 :: spotted, true⟩) ∧
    (spotted.contains icao24 = true →
      process_aircraft_for_logbook spotted icao24 aircraft_type image_url ok
        = ⟨false, spotted, false⟩) ∧
    (aircraft_type = "Unknown Aircraft" →
      process_aircraft_for_logbook spotted icao24 aircraft_type image_url ok
        = ⟨false, spotted, false⟩) ∧
    (ok = false →
      (process_aircraft_for_logbook spotted icao24 aircraft_type image_url ok).result
        = false ∧
      (process_aircraft_for_logbook spotted icao24 aircraft_type image_url
          ok).spotted_aircraft = spotted) ∧
    (∀ type2 image2 ok2, spotted.contains icao24 = false →
      aircraft_type ≠ "Unknown Aircraft" → ok = true →
      process_aircraft_for_logbook
          (process_aircraft_for_logbook spotted icao24 aircraft_type image_url
            ok).spotted_aircraft icao24 type2 image2 ok2
        = ⟨false,
           (process_aircraft_for_logbook spotted icao24 aircraft_type image_url
             ok).spotted_aircraft, false⟩) := by
  refine ⟨?_, ?_, ?_, ?_, ?_⟩
  · intro h1 h2 h3
    subst h3
    simp at h1
    simp [process_aircraft_for_logbook, should_add_to_logbook, h1, h2]
  · intro h1
    simp at h1
    simp [process_aircraft_for_logbook, should_add_to_logbook, h1]
  · intro h1
    subst h1
    by_cases h2 : icao24 ∈ spotted
    · simp [process_aircraft_for_logbook, should_add_to_logbook, h2]
    · simp [process_aircraft_for_logbook, should_add_to_logbook, h2]
  · intro h1
    subst h1
    by_cases h2 : should_add_to_logbook spotted icao24 aircraft_type = true
    · simp [process_aircraft_for_logbook, h2]
    · simp at h2
      simp [process_aircraft_for_logbook, h2]
  · intro type2 image2 ok2 h1 h2 h3
    subst h3
    simp at h1
    have hfirst : process_aircraft_for_logbook spotted icao24 aircraft_type image_url true
        = ⟨true, icao24 :: spotted, true⟩ := by
      simp [process_aircraft_for_logbook, should_add_to_logbook, h1, h2]
    rw [hfirst]
    simp [process_aircraft_for_logbook, should_add_to_logbook]

/-- C4 witness: first call succeeds and marks the aircraft; the repeat
call and an unknown-type call are skipped without a write. -/
theorem process_aircraft_for_logbook_spec_witness :
    process_aircraft_for_logbook [] "abc123" "Boeing 737" none true
      = ⟨true, ["abc123"], true⟩ ∧
    process_aircraft_for_logbook ["abc123"] "abc123" "Boeing 737" none true
      = ⟨false, ["abc123"], false⟩ ∧
    process_aircraft_for_logbook [] "abc123" "Unknown Aircraft" none true
      = ⟨false, [], false⟩ :=
  ⟨(process_aircraft_for_logbook_spec [] "abc123" "Boeing 737" none true).1
      (by decide) (by decide) rfl,
   (process_aircraft_for_logbook_spec ["abc123"] "abc123" "Boeing 737" none
      true).2.1 (by decide),
   (process_aircraft_for_logbook_spec [] "abc123" "Unknown Aircraft" none
      true).2.2.1 rfl⟩

/-- A key just deleted from the ordered dict no longer resolves. -/
theorem lookupKey_eraseKey {β : Type} (k : String) (l : List (String × β)) :
    lookupKey k (eraseKey k l) = none := by
  induction l with
  | nil => rfl
  | cons pr rest ih =>
    obtain ⟨k2, v⟩ := pr
    by_cases h : k2 = k
    · simpa [eraseKey, List.filter_cons, h] using ih
    · simpa [eraseKey, List.filter_cons, h, lookupKey] using ih

/-- C5: a cache read never returns data whose TTL has elapsed at the
time of the read: a returned value always comes from a stored entry
whose expiry has not passed, and reading a stored entry past its expiry
returns nothing, removes the entry, and counts exactly one expiration
and one miss. -/
theorem lru_cache_get_ttl {α : Type} (c : LRUCache α) (key : String) (now : ℤ) :
    (∀ v, (c.get key now).1 = some v →
      ∃ e, lookupKey key c.cache = some e ∧ ¬ now > e.expires_at ∧ v = e.data) ∧
    (∀ e, lookupKey key c.cache = some e → now > e.expires_at →
      (c.get key now).1 = none ∧
      lookupKey key (c.get key now).2.cache = none ∧
      (c.get key now).2.stats.expirations = c.stats.expirations + 1 ∧
      (c.get key now).2.stats.misses = c.stats.misses + 1) := by
  constructor
  · intro v hv
    cases hl : lookupKey key c.cache with
    | none => simp [LRUCache.get, hl] at hv
    | some e =>
      by_cases hexp : e.is_expired now = true
      · simp [LRUCache.get, hl, hexp] at hv
      · simp [LRUCache.get, hl, hexp, CacheEntry.access] at hv
        refine ⟨e, rfl, ?_, hv.symm⟩
        simpa [CacheEntry.is_expired] using hexp
  · intro e hl hexp
    have hexpb : e.is_expired now = true := by
      simp [CacheEntry.is_expired, hexp]
    refine ⟨?_, ?_, ?_, ?_⟩
    · simp [LRUCache.get, hl, hexpb]
    · simp [LRUCache.get, hl, hexpb, lookupKey_eraseKey]
    · simp [LRUCache.get, hl, hexpb]
    · simp [LRUCache.get, hl, hexpb]

/-- C5 witness: reading the sample entry one tick after its expiry
misses, removes it, and counts one expiration and one miss. -/
theorem lru_cache_get_ttl_witness :
    (sampleCache.get "icao_abc" 11).1 = none ∧
    lookupKey "icao_abc" (sampleCache.get "icao_abc" 11).2.cache = none ∧
    (sampleCache.get "icao_abc" 11).2.stats.expirations = 1 ∧
    (sampleCache.get "icao_abc" 11).2.stats.misses = 1 := by
  have h := (lru_cache_get_ttl sampleCache "icao_abc" 11).2
    ⟨"Boeing 737", 10, 0, 0⟩ (by decide) (by decide)
  exact ⟨h.1, h.2.1, h.2.2.1, h.2.2.2⟩

/-- Pruning keeps every attempt when the predicate rejects the common
timestamp. -/
theorem dropWhile_replicate_of_false {p : ℤ → Bool} (a : ℤ) (k : ℕ)
    (h : p a = false) :
    List.dropWhile p (List.replicate k a) = List.replicate k a := by
  cases k with
  | zero => rfl
  | succ n => simp [List.replicate_succ, List.dropWhile_cons, h]

/-- Pruning removes every attempt when the predicate accepts the common
timestamp. -/
theorem dropWhile_replicate_of_true {p : ℤ → Bool} (a : ℤ) (k : ℕ)
    (h : p a = true) :
    List.dropWhile p (List.replicate k a) = [] := by
  induction k with
  | zero => rfl
  | succ n ih => simp [List.replicate_succ, List.dropWhile_cons, h, ih]

/-- Running `n` admit-and-close attempts at one timestamp from a state
already holding `k ≤ L` in-window attempts admits exactly
`min n (L - k)` of them and leaves `min (k + n) L` recorded attempts
with no active connection. -/
theorem admitCloseN_run (L M : ℕ) (W now : ℤ) (hM : 1 ≤ M) (hW : 0 ≤ W) :
    ∀ n k, k ≤ L →
      admitCloseN ⟨L, W, M, List.replicate k now, 0⟩ now n
        = (min n (L - k), ⟨L, W, M, List.replicate (min (k + n) L) now, 0⟩) := by
  intro n
  induction n with
  | zero =>
    intro k hk
    simp [admitCloseN, Nat.min_eq_left hk]
  | succ n ih =>
    intro k hk
    have hprune : List.dropWhile (fun t => decide (t < now - W)) (List.replicate k now)
        = List.replicate k now :=
      dropWhile_replicate_of_false now k (by simp; omega)
    by_cases hkL : k < L
    · have hstep : admitClose ⟨L, W, M, List.replicate k now, 0⟩ now
          = (true, ⟨L, W, M, List.replicate (k + 1) now, 0⟩) := by
        simp [admitClose, check_connection_allowed, connection_closed, hprune,
          not_le.2 hkL, Nat.not_le.2 hM, List.replicate_succ']
      have ihr := ih (k + 1) hkL
      rw [admitCloseN, hstep]
      simp only [ihr]
      have h1 : 1 + min n (L - (k + 1)) = min (n + 1) (L - k) := by omega
      have h2 : k + 1 + n = k + (n + 1) := by omega
      simp [h1, h2]
    · have hkeq : k = L := by omega
      have hstep : admitClose ⟨L, W, M, List.replicate k now, 0⟩ now
          = (false, ⟨L, W, M, List.replicate k now, 0⟩) := by
        rw [admitClose, check_connection_allowed]
        dsimp only
        rw [hprune, if_pos (by simp [hkeq])]
      have ihr := ih k hk
      rw [admitCloseN, hstep]
      simp only [ihr]
      have e1 : (if false then 1 else 0) + min n (L - k) = min (n + 1) (L - k) := by
        simp [hkeq]
      have e2 : min (k + n) L = min (k + (n + 1)) L := by omega
      rw [e1, e2]

/-- C6: from a fresh per-IP state, exactly `connection_limit` of `n`
same-window admission attempts succeed (each closed again before the
next, so the concurrency cap does not interfere); once the window has
passed a new admission succeeds again; independently of the window, any
state whose active-connection counter has reached
`max_connections_per_ip` is rejected; and every successful call records
the attempt timestamp and increments the active counter. -/
theorem check_connection_allowed_spec (L M : ℕ) (W now later : ℤ) (n : ℕ)
    (hL : 1 ≤ L) (hM : 1 ≤ M) (hW : 0 ≤ W) (hlater : now + W < later) :
    (admitCloseN (mkRateLimiter L W M) now n).1 = min n L ∧
    (check_connection_allowed (admitCloseN (mkRateLimiter L W M) now n).2 later).1
      = true ∧
    (∀ rl : RateLimiter, rl.max_connections_per_ip ≤ rl.active_connections →
      (check_connection_allowed rl now).1 = false) ∧
    (∀ (rl : RateLimiter) (now2 : ℤ), (check_connection_allowed rl now2).1 = true →
      (check_connection_allowed rl now2).2.active_connections
        = rl.active_connections + 1 ∧
      (check_connection_allowed rl now2).2.connection_attempts
        = rl.connection_attempts.dropWhile
            (fun t => decide (t < now2 - rl.connection_window)) ++ [now2]) := by
  have hrun := admitCloseN_run L M W now hM hW n 0 (Nat.zero_le L)
  refine ⟨?_, ?_, ?_, ?_⟩
  · rw [mkRateLimiter]
    simpa using congrArg Prod.fst hrun
  · rw [mkRateLimiter]
    rw [show (⟨L, W, M, [], 0⟩ : RateLimiter) = ⟨L, W, M, List.replicate 0 now, 0⟩ from rfl,
      hrun]
    rw [check_connection_allowed]
    dsimp only
    rw [dropWhile_replicate_of_true now _ (by simp only [decide_eq_true_eq]; omega)]
    rw [if_neg (by simp only [List.length_nil]; omega), if_neg (by omega)]
  · intro rl h
    rw [check_connection_allowed]
    by_cases c1 : (rl.connection_attempts.dropWhile
        (fun t => decide (t < now - rl.connection_window))).length
        ≥ rl.connection_limit
    · simp [c1]
    · simp [c1, ge_iff_le, h]
  · intro rl now2 h
    rw [check_connection_allowed] at h ⊢
    by_cases c1 : (rl.connection_attempts.dropWhile
        (fun t => decide (t < now2 - rl.connection_window))).length
        ≥ rl.connection_limit
    · simp [c1] at h
    · by_cases c2 : rl.active_connections ≥ rl.max_connections_per_ip
      · simp [c1, c2] at h
      · simp [c1, c2]

/-- C6 witness: with limits 5/60s/3-concurrent, five of six same-second
attempts are admitted and the state admits again after the window; a
state at the concurrency cap is rejected; a successful call records the
attempt and bumps the counter. -/
theorem check_connection_allowed_spec_witness :
    (admitCloseN (mkRateLimiter 5 60 3) 0 6).1 = 5 ∧
    (check_connection_allowed (admitCloseN (mkRateLimiter 5 60 3) 0 6).2 61).1
      = true ∧
    (check_connection_allowed (⟨5, 60, 3, [], 3⟩ : RateLimiter) 0).1 = false ∧
    (check_connection_allowed (mkRateLimiter 5 60 3) 0).2.active_connections = 1 ∧
    (check_connection_allowed (mkRateLimiter 5 60 3) 0).2.connection_attempts
      = [0] := by
  have h := check_connection_allowed_spec 5 3 60 0 61 6
    (by decide) (by decide) (by decide) (by decide)
  have h4 := h.2.2.2 (mkRateLimiter 5 60 3) 0 (by decide)
  exact ⟨h.1, h.2.1, h.2.2.1 ⟨5, 60, 3, [], 3⟩ (by decide), h4.1, by
    rw [h4.2]; decide⟩

/-- C9: for a parsed client message whose `type` is `get_logbook`,
validation succeeds (returning the message unchanged) exactly when the
`limit` field is absent or is an integer between 1 and 1000; any other
`limit` raises the validation failure, and nothing else is ever returned
as success. -/
theorem validate_client_message_limit_rule (data : List (String × JVal))
    (htype : lookupKey "type" data = some (JVal.jstr "get_logbook")) :
    (validate_client_message data = Except.ok data ↔ limit_ok data = true) ∧
    (∀ r, validate_client_message data = Except.ok r → r = data) := by
  have hred : validate_client_message data = validate_get_logbook data := by
    simp [validate_client_message, htype]
  rw [hred]
  cases hlim : lookupKey "limit" data with
  | none =>
    constructor
    · simp [validate_get_logbook, limit_ok, hlim]
    · intro r hr
      simp [validate_get_logbook, hlim] at hr
      exact hr.symm
  | some v =>
    cases hint : pyIntValue v with
    | none =>
      constructor
      · simp [validate_get_logbook, limit_ok, hlim, hint]
      · intro r hr
        simp [validate_get_logbook, hlim, hint] at hr
    | some m =>
      by_cases h1 : m < 1
      · constructor
        · simp [validate_get_logbook, limit_ok, hlim, hint, h1]
        · intro r hr
          simp [validate_get_logbook, hlim, hint, h1] at hr
      · by_cases h2 : m > 1000
        · constructor
          · simp [validate_get_logbook, limit_ok, hlim, hint, h1, h2]
          · intro r hr
            simp [validate_get_logbook, hlim, hint, h1, h2] at hr
        · constructor
          · simp [validate_get_logbook, limit_ok, hlim, hint, h1, h2]
            omega
          · intro r hr
            simp [validate_get_logbook, hlim, hint, h1, h2] at hr
            exact hr.symm

/-- C9 witness: `limit = 5000` is rejected; `limit = 500` is accepted. -/
theorem validate_client_message_limit_rule_witness :
    validate_client_message
        [("type", JVal.jstr "get_logbook"), ("limit", JVal.jint 5000)]
      ≠ Except.ok [("type", JVal.jstr "get_logbook"), ("limit", JVal.jint 5000)] ∧
    validate_client_message
        [("type", JVal.jstr "get_logbook"), ("limit", JVal.jint 500)]
      = Except.ok [("type", JVal.jstr "get_logbook"), ("limit", JVal.jint 500)] := by
  constructor
  · intro h
    have h2 := ((validate_client_message_limit_rule _ (by decide)).1).mp h
    exact absurd h2 (by decide)
  · exact ((validate_client_message_limit_rule _ (by decide)).1).mpr (by decide)

end BrumBrum
